import Mathlib

/-!
Shallow embedding of the RE_TRACKER frontend data pipeline
(`frontend/chart.js`): dataset caching, synthetic fallback generation,
timeframe filtering, simple-moving-average computation, chart (view-model)
composition, and summary-statistic derivation.

Conventions of the embedding:
* JavaScript numbers are modelled as rationals (`ℚ`); the non-finite
  values `Infinity`/`-Infinity`/`NaN` that arise from division by zero are
  modelled explicitly by the type `JsNum`.
* `Math.sin` and the `Math.random()` jitter terms of the demo-data
  generator are parameters of the embedding (`sin : ℚ → ℚ`,
  `jL jP : ℕ → ℚ`): theorems that depend on their values carry the bounds
  `|sin x| ≤ 1` and the jitter bands as hypotheses.
* Dates are modelled as integers (days); the locale-specific display
  formatting (`toLocaleDateString`) is presentation-only and modelled as
  `toString`.
* `Math.round` is `round` (both are floor of `x + 1/2`), `toFixed(k)`
  rounding to `k` decimals is `round1` / `round2`.
-/

/-- One observation, as delivered by `/api/data` and produced by
`useDemoData` (chart.js lines 199-204). Field names follow the source. -/
structure DataPoint where
  date : ℤ
  active_listings : ℤ
  avg_price_per_sqft : ℚ
  data_source : String
deriving Repr, DecidableEq, Inhabited

/-- A JavaScript number that may be non-finite: results of dividing by
zero are `posInf`, `negInf` or `nan` according to the sign of the
numerator. -/
inductive JsNum where
  | fin (q : ℚ)
  | posInf
  | negInf
  | nan
deriving Repr, DecidableEq, Inhabited

/-- JavaScript division `a / b` on finite operands: `x/0` is `Infinity`,
`-Infinity` or `NaN` according to the sign of `x`. -/
def jsDiv (a b : ℚ) : JsNum :=
  if b = 0 then
    if 0 < a then .posInf else if a < 0 then .negInf else .nan
  else .fin (a / b)

/-- Multiplication of a JavaScript number by the positive constant 100
(used by the percent-change computation): non-finite values propagate. -/
def JsNum.mul100 : JsNum → JsNum
  | .fin q => .fin (q * 100)
  | .posInf => .posInf
  | .negInf => .negInf
  | .nan => .nan

/-- The JavaScript comparison `x >= 0`: false on `NaN` and `-Infinity`,
true on `Infinity`. -/
def JsNum.ge0 : JsNum → Bool
  | .fin q => decide (0 ≤ q)
  | .posInf => true
  | .negInf => false
  | .nan => false

/-- Rounding to one decimal place (`toFixed(1)`). -/
def round1 (q : ℚ) : ℚ := ((round (q * 10) : ℤ) : ℚ) / 10

/-- Rounding to two decimal places (`toFixed(2)`). -/
def round2 (q : ℚ) : ℚ := ((round (q * 100) : ℤ) : ℚ) / 100

/-- Rounding `toFixed(1)` applied to a JavaScript number: non-finite values render
as themselves (`"Infinity"`, `"NaN"`). -/
def JsNum.round1J : JsNum → JsNum
  | .fin q => .fin (round1 q)
  | x => x

/-- Function `calculateSMA` (chart.js lines 267-278): for each index `i` of the
input, `null` when `i < period - 1`, otherwise the sum of
`data.slice(i - period + 1, i + 1)` divided by `period`. -/
def calculateSMA (data : List ℚ) (period : ℕ) : List (Option ℚ) :=
  (List.range data.length).map fun (i : ℕ) =>
    if (i : ℤ) < (period : ℤ) - 1 then none
    else some (((data.drop (i + 1 - period : ℕ)).take period).sum / period)

/-- The value of the timeframe `<select>`: `"7" | "30" | "90" | "180" |
"365"` parsed to a number, or `"all"`. -/
inductive Timeframe where
  | all
  | days (n : ℕ)
deriving Repr, DecidableEq

/-- JavaScript `Array.prototype.slice(-n)`: the last `n` elements (all of them when
`n` exceeds the length, the whole array when `n = 0` since `-0` is `0`). -/
def jsSliceNeg (l : List DataPoint) (n : ℕ) : List DataPoint :=
  if n = 0 then l else l.drop (l.length - n)

/-- The timeframe filter of `updateChart` (chart.js lines 219-223):
`cachedData` unchanged for `"all"`, else `cachedData.slice(-days)`. -/
def filterTimeframe (dataset : List DataPoint) : Timeframe → List DataPoint
  | .all => dataset
  | .days n => jsSliceNeg dataset n

/-- One Chart.js dataset as far as the pipeline manipulates it: its
`label` and its `data` array. The styling fields set at creation are
display-only constants and are not modelled. -/
structure Series where
  label : String
  data : List (Option ℚ)
deriving Repr, DecidableEq, Inhabited

/-- The mutable chart model: `housingChart.data.labels` and
`housingChart.data.datasets`. -/
structure ChartState where
  labels : List String
  datasets : List Series
deriving Repr, DecidableEq

/-- The chart as built by `initializeChart` (chart.js lines 21-160): two
base datasets with empty data. -/
def initialChart : ChartState :=
  { labels := []
    datasets := [{ label := "Active Listings", data := [] },
                 { label := "Avg Price/SqFt", data := [] }] }

/-- Assignment `datasets[i].data = d`: in-place update of one dataset's data array,
keeping its label. -/
def setData (ds : List Series) (i : ℕ) (d : List (Option ℚ)) : List Series :=
  ds.set i { ds.getD i default with data := d }

/-- Display formatting `date.toLocaleDateString(...)` in `formatDate` (chart.js lines
302-305): locale-specific display formatting, modelled as `toString`
(labels are display-only and never used for sorting or equality). -/
def formatDate (d : ℤ) : String := toString d

/-- Function `updateChart` (chart.js lines 212-264): returns early on an empty
cache; filters by timeframe; writes labels and the two base data arrays;
then either pushes/updates the SMA overlay dataset (when `smaPeriod > 0`
and the filtered data is long enough) or pops it if present. -/
def updateChart (cachedData : List DataPoint) (tf : Timeframe)
    (smaPeriod : ℤ) (chart : ChartState) : ChartState :=
  if cachedData.isEmpty then chart else
  let filteredData := filterTimeframe cachedData tf
  let labels := filteredData.map fun d => formatDate d.date
  let listingsData : List (Option ℚ) :=
    filteredData.map fun d => some ((d.active_listings : ℚ))
  let priceVals : List ℚ := filteredData.map fun d => d.avg_price_per_sqft
  let priceData : List (Option ℚ) := priceVals.map some
  let ds := setData (setData chart.datasets 0 listingsData) 1 priceData
  let ds :=
    if 0 < smaPeriod ∧ smaPeriod ≤ (filteredData.length : ℤ) then
      let priceSMA := calculateSMA priceVals smaPeriod.toNat
      if ds.length = 2 then
        ds ++ [{ label := toString smaPeriod ++ "-Day SMA", data := priceSMA }]
      else
        ds.set 2 { label := toString smaPeriod ++ "-Day SMA", data := priceSMA }
    else
      if 2 < ds.length then ds.dropLast else ds
  { labels := labels, datasets := ds }

/-- The statistics cards as written by `updateStats`: current listings,
current price, the raw 30-day percent change, the rounded value shown in
the card, whether a leading `+` is rendered, and the last-update date. -/
structure Stats where
  currentListings : ℤ
  currentPrice : ℚ
  changeValue : JsNum
  changeDisplay : JsNum
  changePlus : Bool
  lastUpdate : ℤ
deriving Repr, DecidableEq

/-- Function `updateStats` (chart.js lines 281-299): returns early (no update) on
an empty cache; otherwise reads the last point and the point at index
`max(0, length - 31)`, computes
`(latest.avg_price_per_sqft - thirtyDaysAgo.avg_price_per_sqft) /
thirtyDaysAgo.avg_price_per_sqft * 100` with JavaScript division, and
renders it `toFixed(1)` with a `+` prefix exactly when `priceChange >= 0`. -/
def updateStats (cachedData : List DataPoint) : Option Stats :=
  if cachedData.isEmpty then none else
  let latest := cachedData.getD (cachedData.length - 1) default
  let thirtyDaysAgo := cachedData.getD (cachedData.length - 31) default
  let priceChange :=
    (jsDiv (latest.avg_price_per_sqft - thirtyDaysAgo.avg_price_per_sqft)
      thirtyDaysAgo.avg_price_per_sqft).mul100
  some { currentListings := latest.active_listings
         currentPrice := latest.avg_price_per_sqft
         changeValue := priceChange
         changeDisplay := priceChange.round1J
         changePlus := priceChange.ge0
         lastUpdate := latest.date }

/-- The point pushed by one iteration of the `useDemoData` loop (chart.js
lines 191-205) at loop counter `i`: date `now - i` days,
`Math.round(45 + Math.sin(i/15)*5 + jl)` listings where `jl` is the
`(Math.random()-0.5)*3` jitter draw, price
`(450 + (90-i)*0.5 + Math.sin(i/10)*10 + jp).toFixed(2)` where `jp` is
the `(Math.random()-0.5)*5` draw, and source `"historical"` iff `i > 30`. -/
def demoPoint (today : ℤ) (sin : ℚ → ℚ) (jl jp : ℚ) (i : ℕ) : DataPoint :=
  { date := today - (i : ℤ)
    active_listings := round (45 + sin ((i : ℚ) / 15) * 5 + jl)
    avg_price_per_sqft :=
      round2 (450 + ((90 : ℚ) - (i : ℚ)) * (1/2) + sin ((i : ℚ) / 10) * 10 + jp)
    data_source := if 30 < i then "historical" else "scraped" }

/-- The `useDemoData` loop, counting `i` down from `n` to `0` and pushing
one point per iteration. -/
def demoLoop (today : ℤ) (sin : ℚ → ℚ) (jL jP : ℕ → ℚ) : ℕ → List DataPoint
  | 0 => [demoPoint today sin (jL 0) (jP 0) 0]
  | n + 1 => demoPoint today sin (jL (n + 1)) (jP (n + 1)) (n + 1) ::
      demoLoop today sin jL jP n

/-- Function `useDemoData` (chart.js lines 184-209): the synthetic fallback
dataset, 91 points for loop counter `i = 90` down to `0`. -/
def useDemoData (today : ℤ) (sin : ℚ → ℚ) (jL jP : ℕ → ℚ) : List DataPoint :=
  demoLoop today sin jL jP 90

/-- Outcome of `fetch('/api/data')` followed by `response.json()`:
a transport error (fetch rejects), or a response with its `ok` flag and
either a parsed payload (`some`) or a JSON parse failure (`none`). -/
inductive FetchResult where
  | transportError
  | httpResponse (ok : Bool) (payload : Option (List DataPoint))
deriving Repr, DecidableEq

/-- The cache contents after `loadData` (chart.js lines 163-181): a
transport error, a non-ok status (the explicit `throw`), or a JSON parse
failure lands in the `catch`, which calls `useDemoData`; otherwise the
parsed payload is stored as-is, with no validation of its contents. -/
def loadData (fetch : FetchResult) (today : ℤ) (sin : ℚ → ℚ)
    (jL jP : ℕ → ℚ) : List DataPoint :=
  match fetch with
  | .transportError => useDemoData today sin jL jP
  | .httpResponse ok payload =>
    if ok then
      match payload with
      | some data => data
      | none => useDemoData today sin jL jP
    else useDemoData today sin jL jP

/-- The page's mutable state touched by the pipeline: the module-level
`cachedData` slot, the chart model, and the statistics cards (None until
first written). -/
structure AppState where
  cachedData : List DataPoint
  chart : ChartState
  stats : Option Stats
deriving Repr, DecidableEq

/-- Function `updateChart` as a transition on the page state: it reads
`cachedData` and writes only the chart model. -/
def stepUpdateChart (tf : Timeframe) (smaPeriod : ℤ) (s : AppState) :
    AppState :=
  { s with chart := updateChart s.cachedData tf smaPeriod s.chart }

/-- Function `updateStats` as a transition on the page state: it reads
`cachedData` and rewrites the statistics cards, leaving them unchanged
when the cache is empty (the early return). -/
def stepUpdateStats (s : AppState) : AppState :=
  { s with stats := match updateStats s.cachedData with
                    | some st => some st
                    | none => s.stats }

/-! ### Helper lemmas -/

/-- Reading index `i < n` out of a mapped range. -/
theorem getD_map_range {α : Type} (n : ℕ) (f : ℕ → α) (i : ℕ) (h : i < n)
    (d : α) : ((List.range n).map f).getD i d = f i := by
  rw [List.getD_eq_getElem _ _ (by simpa using h)]
  simp

/-- Shared concrete dataset for witnesses: 40 points with
`avg_price_per_sqft` running linearly from 100 to 139. -/
def sampleData : List DataPoint :=
  (List.range 40).map fun (i : ℕ) =>
    { date := (i : ℤ), active_listings := 1,
      avg_price_per_sqft := 100 + (i : ℚ), data_source := "historical" }

/-! ### C1: simple moving average, general shape -/

/-- C1: for every period `p ≥ 1` and input of length `n`, `calculateSMA`
returns a sequence of length `n`; every index `i < p - 1` is `null`;
every index `i ≥ p - 1` is the arithmetic mean of the window
`values[i-p+1 .. i]`; and when `p > n` every entry is `null`. -/
theorem calculateSMA_spec (values : List ℚ) (p : ℕ) (hp : 1 ≤ p) :
    (calculateSMA values p).length = values.length ∧
    (∀ i : ℕ, i < values.length → i < p - 1 →
      (calculateSMA values p).getD i (some 0) = none) ∧
    (∀ i : ℕ, i < values.length → p - 1 ≤ i →
      (calculateSMA values p).getD i none =
        some (((values.drop (i + 1 - p)).take p).sum / p)) ∧
    (values.length < p → ∀ x ∈ calculateSMA values p, x = none) := by
  refine ⟨by simp [calculateSMA], ?_, ?_, ?_⟩
  · intro i hi hip
    rw [calculateSMA, getD_map_range _ _ _ hi]
    rw [if_pos (by omega)]
  · intro i hi hip
    rw [calculateSMA, getD_map_range _ _ _ hi]
    rw [if_neg (by omega)]
  · intro hnp x hx
    rw [calculateSMA] at hx
    obtain ⟨i, hi, rfl⟩ := List.mem_map.mp hx
    rw [List.mem_range] at hi
    rw [if_pos (by omega)]

/-- Witness for C1 at the spec's own example: `p = 3` on the ten values
`10, 20, ..., 100`. -/
theorem calculateSMA_spec_witness :
    (1 ≤ 3) ∧
    ((calculateSMA [10, 20, 30, 40, 50, 60, 70, 80, 90, 100] 3).length =
      ([10, 20, 30, 40, 50, 60, 70, 80, 90, 100] : List ℚ).length ∧
    (∀ i : ℕ, i < ([10, 20, 30, 40, 50, 60, 70, 80, 90, 100] : List ℚ).length →
      i < 3 - 1 →
      (calculateSMA [10, 20, 30, 40, 50, 60, 70, 80, 90, 100] 3).getD i
        (some 0) = none) ∧
    (∀ i : ℕ, i < ([10, 20, 30, 40, 50, 60, 70, 80, 90, 100] : List ℚ).length →
      3 - 1 ≤ i →
      (calculateSMA [10, 20, 30, 40, 50, 60, 70, 80, 90, 100] 3).getD i none =
        some ((((([10, 20, 30, 40, 50, 60, 70, 80, 90, 100] : List ℚ)).drop
          (i + 1 - 3)).take 3).sum / 3)) ∧
    (([10, 20, 30, 40, 50, 60, 70, 80, 90, 100] : List ℚ).length < 3 →
      ∀ x ∈ calculateSMA [10, 20, 30, 40, 50, 60, 70, 80, 90, 100] 3,
        x = none)) :=
  ⟨by decide, calculateSMA_spec [10, 20, 30, 40, 50, 60, 70, 80, 90, 100] 3
    (by decide)⟩

/-! ### C10: period 1 is the identity -/

/-- C10: `calculateSMA` with period 1 returns the input values
element by element (no entry is `null`). -/
theorem calculateSMA_one (values : List ℚ) :
    calculateSMA values 1 = values.map some := by
  apply List.ext_getElem
  · simp [calculateSMA]
  · intro i h1 h2
    simp only [calculateSMA, List.length_range, List.length_map] at h1 ⊢
    rw [List.getElem_map, List.getElem_map, List.getElem_range]
    rw [if_neg (by omega)]
    have hlt : i < values.length := by simpa using h2
    rw [show i + 1 - 1 = i from rfl,
      List.drop_eq_getElem_cons hlt, List.take_succ_cons, List.take_zero]
    simp

/-! ### C4: timeframe filtering -/

/-- C4: for every dataset and every numeric window `w` among
7, 30, 90, 180 and 365, the timeframe filter returns a suffix of
the dataset of length `min w |dataset|` (the last `min w |dataset|`
points in original order, no padding), and the `all` window returns the
dataset unchanged. -/
theorem filterTimeframe_spec (ds : List DataPoint) (w : ℕ)
    (hw : w = 7 ∨ w = 30 ∨ w = 90 ∨ w = 180 ∨ w = 365) :
    (filterTimeframe ds (.days w)).length = min w ds.length ∧
    (filterTimeframe ds (.days w)) <:+ ds ∧
    filterTimeframe ds .all = ds := by
  have hw0 : w ≠ 0 := by omega
  refine ⟨?_, ?_, rfl⟩
  · rw [filterTimeframe, jsSliceNeg, if_neg hw0, List.length_drop]
    omega
  · rw [filterTimeframe, jsSliceNeg, if_neg hw0]
    exact List.drop_suffix _ _

/-- Witness for C4: window 7 on the 40-point sample dataset. -/
theorem filterTimeframe_spec_witness :
    ((7 : ℕ) = 7 ∨ (7 : ℕ) = 30 ∨ (7 : ℕ) = 90 ∨ (7 : ℕ) = 180 ∨
      (7 : ℕ) = 365) ∧
    ((filterTimeframe sampleData (.days 7)).length = min 7 sampleData.length ∧
    (filterTimeframe sampleData (.days 7)) <:+ sampleData ∧
    filterTimeframe sampleData .all = sampleData) :=
  ⟨Or.inl rfl, filterTimeframe_spec sampleData 7 (Or.inl rfl)⟩

/-! ### C3: overlay series lifecycle -/

/-- C3: after `updateChart` on a non-empty cache and a chart holding 2 or
3 datasets, the chart holds 3 datasets (base pair plus overlay) exactly
when `smaPeriod > 0` and the filtered data is at least `smaPeriod` long;
it always holds 2 or 3 datasets; `smaPeriod = 0` never leaves an overlay
(a stale one is removed); and when present the overlay sits in slot 2
with the SMA of the filtered price series and its period label. -/
theorem updateChart_overlay_spec (cachedData : List DataPoint)
    (tf : Timeframe) (smaPeriod : ℤ) (chart : ChartState)
    (hne : cachedData ≠ [])
    (hlen : chart.datasets.length = 2 ∨ chart.datasets.length = 3) :
    ((updateChart cachedData tf smaPeriod chart).datasets.length = 3 ↔
      0 < smaPeriod ∧
        smaPeriod ≤ ((filterTimeframe cachedData tf).length : ℤ)) ∧
    ((updateChart cachedData tf smaPeriod chart).datasets.length = 2 ∨
      (updateChart cachedData tf smaPeriod chart).datasets.length = 3) ∧
    (smaPeriod = 0 →
      (updateChart cachedData tf smaPeriod chart).datasets.length = 2) ∧
    (0 < smaPeriod ∧
        smaPeriod ≤ ((filterTimeframe cachedData tf).length : ℤ) →
      (updateChart cachedData tf smaPeriod chart).datasets.getD 2 default =
        { label := toString smaPeriod ++ "-Day SMA"
          data := calculateSMA
            ((filterTimeframe cachedData tf).map fun d => d.avg_price_per_sqft)
            smaPeriod.toNat }) := by
  obtain ⟨clabels, cds⟩ := chart
  have hie : cachedData.isEmpty = false := by simp [hne]
  by_cases hpred : 0 < smaPeriod ∧
      smaPeriod ≤ ((filterTimeframe cachedData tf).length : ℤ)
  · rcases cds with _ | ⟨a, _ | ⟨b, _ | ⟨c, rest⟩⟩⟩ <;> simp at hlen
    · simp [updateChart, setData, hie, hpred]
      omega
    · have : rest = [] := by simpa using hlen
      subst this
      simp [updateChart, setData, hie, hpred]
      omega
  · rcases cds with _ | ⟨a, _ | ⟨b, _ | ⟨c, rest⟩⟩⟩ <;> simp at hlen
    · simp [updateChart, setData, hie, hpred]
    · have : rest = [] := by simpa using hlen
      subst this
      simp [updateChart, setData, hie, hpred]

/-- Witness for C3: the 40-point sample dataset, timeframe `all`, period
7, on the freshly initialized two-series chart yields the overlay. -/
theorem updateChart_overlay_spec_witness :
    (updateChart sampleData .all 7 initialChart).datasets.length = 3 :=
  ((updateChart_overlay_spec sampleData .all 7 initialChart
      (by decide) (Or.inl rfl)).1).mpr (by decide)

/-! ### C5: statistics derivation -/

/-- C5: on a non-empty cache whose reference point (index
`max(0, length - 31)`, i.e. 30 points back, clamped to the first point)
has non-zero price, `updateStats` publishes the latest point's values and
a percent change of `(latest - reference) / reference * 100`, displayed
rounded to one decimal, with a leading `+` exactly when the raw change is
non-negative. -/
theorem updateStats_spec (ds : List DataPoint) (hne : ds ≠ [])
    (href : (ds.getD (ds.length - 31) default).avg_price_per_sqft ≠ 0) :
    updateStats ds = some
      { currentListings := (ds.getD (ds.length - 1) default).active_listings
        currentPrice := (ds.getD (ds.length - 1) default).avg_price_per_sqft
        changeValue := .fin
          (((ds.getD (ds.length - 1) default).avg_price_per_sqft -
              (ds.getD (ds.length - 31) default).avg_price_per_sqft) /
            (ds.getD (ds.length - 31) default).avg_price_per_sqft * 100)
        changeDisplay := .fin (round1
          (((ds.getD (ds.length - 1) default).avg_price_per_sqft -
              (ds.getD (ds.length - 31) default).avg_price_per_sqft) /
            (ds.getD (ds.length - 31) default).avg_price_per_sqft * 100))
        changePlus := decide (0 ≤
          ((ds.getD (ds.length - 1) default).avg_price_per_sqft -
              (ds.getD (ds.length - 31) default).avg_price_per_sqft) /
            (ds.getD (ds.length - 31) default).avg_price_per_sqft * 100)
        lastUpdate := (ds.getD (ds.length - 1) default).date } := by
  have hie : ds.isEmpty = false := by simp [hne]
  rw [updateStats, hie]
  simp only [Bool.false_eq_true, if_false, jsDiv, if_neg href,
    JsNum.mul100, JsNum.round1J, JsNum.ge0]

/-- Witness for C5 at the spec's example: on the 40-point sample dataset
the reference is the point at index 9 (price 109), the latest price is
139, and the displayed change is `+27.5%` (55/2, with the plus sign). -/
theorem updateStats_spec_witness :
    updateStats sampleData = some
      { currentListings := 1, currentPrice := 139,
        changeValue := .fin (3000 / 109),
        changeDisplay := .fin (55 / 2),
        changePlus := true, lastUpdate := 39 } := by
  have hlen : sampleData.length = 40 := by simp [sampleData]
  have h9 : sampleData.getD (sampleData.length - 31) default =
      { date := 9, active_listings := 1, avg_price_per_sqft := 109,
        data_source := "historical" } := by
    rw [hlen, show (40 - 31 : ℕ) = 9 from rfl, sampleData,
      getD_map_range _ _ _ (by norm_num)]
    norm_num
  have h39 : sampleData.getD (sampleData.length - 1) default =
      { date := 39, active_listings := 1, avg_price_per_sqft := 139,
        data_source := "historical" } := by
    rw [hlen, show (40 - 1 : ℕ) = 39 from rfl, sampleData,
      getD_map_range _ _ _ (by norm_num)]
    norm_num
  have hne : sampleData ≠ [] := by
    intro h
    rw [h] at hlen
    simp at hlen
  have href : (sampleData.getD (sampleData.length - 31) default).avg_price_per_sqft ≠ 0 := by
    rw [h9]
    norm_num
  rw [updateStats_spec sampleData hne href, h9, h39]
  norm_num [round1, round_eq, Stats.mk.injEq]

/-! ### C6: division by zero in the percent change -/

/-- C6 (code bug): on a dataset whose reference point has price 0 the
code does not detect the division by zero: the `NaN` produced by `0/0`
flows into the rendered statistic (the card shows `NaN%`), and no
"no change data available" outcome exists anywhere in `updateStats`. -/
theorem updateStats_divzero_nan :
    updateStats [{ date := 0, active_listings := 50,
                   avg_price_per_sqft := 0, data_source := "scraped" }] =
      some { currentListings := 50, currentPrice := 0,
             changeValue := .nan, changeDisplay := .nan,
             changePlus := false, lastUpdate := 0 } := by
  simp [updateStats, jsDiv, JsNum.mul100, JsNum.round1J, JsNum.ge0]

/-! ### Demo-generator lemmas -/

/-- Length of the demo-data loop: counting from `n` down to 0 pushes
`n + 1` points. -/
theorem demoLoop_length (today : ℤ) (sin : ℚ → ℚ) (jL jP : ℕ → ℚ) :
    ∀ n, (demoLoop today sin jL jP n).length = n + 1 := by
  intro n
  induction n with
  | zero => rfl
  | succ n ih => simp [demoLoop, ih]

/-- Head of the demo-data loop: the point at loop counter `n`. -/
theorem demoLoop_head (today : ℤ) (sin : ℚ → ℚ) (jL jP : ℕ → ℚ) (n : ℕ) :
    (demoLoop today sin jL jP n).head? =
      some (demoPoint today sin (jL n) (jP n) n) := by
  cases n <;> rfl

/-- Last element of the demo-data loop: the point at loop counter 0,
whose date is `today`. -/
theorem demoLoop_getLast (today : ℤ) (sin : ℚ → ℚ) (jL jP : ℕ → ℚ) :
    ∀ n, (demoLoop today sin jL jP n).getLast? =
      some (demoPoint today sin (jL 0) (jP 0) 0) := by
  intro n
  induction n with
  | zero => rfl
  | succ n ih =>
    cases n with
    | zero => rfl
    | succ m =>
      rw [demoLoop, demoLoop, List.getLast?_cons_cons, ← demoLoop]
      exact ih

/-- Consecutive demo points are exactly one day apart. -/
theorem demoLoop_chain (today : ℤ) (sin : ℚ → ℚ) (jL jP : ℕ → ℚ) :
    ∀ n, List.Chain' (fun a b => b.date = a.date + 1)
      (demoLoop today sin jL jP n) := by
  intro n
  induction n with
  | zero => simp [demoLoop]
  | succ n ih =>
    rw [demoLoop, List.chain'_cons']
    refine ⟨?_, ih⟩
    intro y hy
    rw [demoLoop_head, Option.mem_some_iff] at hy
    subst hy
    simp only [demoPoint]
    push_cast
    ring

/-- Every member of the demo-data loop is a demo point with loop counter
at most `n`. -/
theorem mem_demoLoop (today : ℤ) (sin : ℚ → ℚ) (jL jP : ℕ → ℚ) :
    ∀ n, ∀ p ∈ demoLoop today sin jL jP n,
      ∃ i, i ≤ n ∧ p = demoPoint today sin (jL i) (jP i) i := by
  intro n
  induction n with
  | zero =>
    intro p hp
    simp only [demoLoop, List.mem_singleton] at hp
    exact ⟨0, Nat.le_refl 0, hp⟩
  | succ n ih =>
    intro p hp
    rw [demoLoop, List.mem_cons] at hp
    rcases hp with rfl | hp
    · exact ⟨n + 1, Nat.le_refl _, rfl⟩
    · obtain ⟨i, hi, rfl⟩ := ih p hp
      exact ⟨i, by omega, rfl⟩

/-! ### C7: shape of the synthetic fallback dataset -/

/-- C7: the synthetic fallback produces exactly 91 points, with dates
strictly increasing by one calendar day and ending at today (the last
point's date is the `today` parameter, so with the one-day steps the
points cover `today - 90 .. today`), whose sources are `"historical"`
for the first 60 points (loop counter `i > 30`) and `"scraped"` for the
last 31 (`i ≤ 30`), for any sine and jitter values. -/
theorem useDemoData_shape (today : ℤ) (sin : ℚ → ℚ) (jL jP : ℕ → ℚ) :
    (useDemoData today sin jL jP).length = 91 ∧
    ((useDemoData today sin jL jP).getLast?.map fun p => p.date) =
      some today ∧
    List.Chain' (fun a b => b.date = a.date + 1)
      (useDemoData today sin jL jP) ∧
    (useDemoData today sin jL jP).map (fun p => p.data_source) =
      List.replicate 60 "historical" ++ List.replicate 31 "scraped" := by
  refine ⟨(demoLoop_length today sin jL jP 90).trans (by norm_num), ?_,
    demoLoop_chain today sin jL jP 90, ?_⟩
  · rw [useDemoData, demoLoop_getLast]
    simp [demoPoint]
  · rfl

/-! ### C8: the synthetic values are never negative -/

/-- Rounding preserves non-negativity. -/
theorem round_nonneg_of_nonneg (q : ℚ) (h : 0 ≤ q) : 0 ≤ round q := by
  rw [round_eq]
  exact Int.floor_nonneg.mpr (by linarith)

/-- Two-decimal rounding preserves non-negativity. -/
theorem round2_nonneg (q : ℚ) (h : 0 ≤ q) : 0 ≤ round2 q := by
  rw [round2]
  have h2 := round_nonneg_of_nonneg (q * 100) (by linarith)
  exact div_nonneg (by exact_mod_cast h2) (by norm_num)

/-- One demo point has non-negative count and price whenever the sine
values lie in `[-1, 1]` and the jitter draws lie inside the uniform
bands `(-1.5, 1.5)` and `(-2.5, 2.5)`: the trend terms dominate, so no
clamping is needed. -/
theorem demoPoint_nonneg (today : ℤ) (sin : ℚ → ℚ) (jl jp : ℚ) (i : ℕ)
    (hs1 : |sin ((i : ℚ) / 15)| ≤ 1) (hs2 : |sin ((i : ℚ) / 10)| ≤ 1)
    (hjl : |jl| ≤ 3 / 2) (hjp : |jp| ≤ 5 / 2) (hi : i ≤ 90) :
    0 ≤ (demoPoint today sin jl jp i).active_listings ∧
    0 ≤ (demoPoint today sin jl jp i).avg_price_per_sqft := by
  rw [abs_le] at hs1 hs2 hjl hjp
  have hi' : (i : ℚ) ≤ 90 := by exact_mod_cast hi
  constructor
  · apply round_nonneg_of_nonneg
    linarith [hs1.1, hjl.1]
  · apply round2_nonneg
    linarith [hs2.1, hjp.1]

/-- C8: every point of the synthetic fallback dataset has
`active_listings ≥ 0` and `avg_price_per_sqft ≥ 0`, for every sine
function bounded by 1 and every jitter sequence inside the stated
uniform bands. -/
theorem useDemoData_nonneg (today : ℤ) (sin : ℚ → ℚ) (jL jP : ℕ → ℚ)
    (hsin : ∀ x, |sin x| ≤ 1) (hjL : ∀ i, |jL i| ≤ 3 / 2)
    (hjP : ∀ i, |jP i| ≤ 5 / 2) :
    ∀ p ∈ useDemoData today sin jL jP,
      0 ≤ p.active_listings ∧ 0 ≤ p.avg_price_per_sqft := by
  intro p hp
  obtain ⟨i, hi, rfl⟩ := mem_demoLoop today sin jL jP 90 p hp
  exact demoPoint_nonneg today sin (jL i) (jP i) i (hsin _) (hsin _)
    (hjL i) (hjP i) hi

/-- Witness for C8: the zero-sine, zero-jitter instantiation at the
first generated point (loop counter 90). -/
theorem useDemoData_nonneg_witness :
    0 ≤ (demoPoint 0 (fun _ => 0) 0 0 90).active_listings ∧
    0 ≤ (demoPoint 0 (fun _ => 0) 0 0 90).avg_price_per_sqft :=
  useDemoData_nonneg 0 (fun _ => 0) (fun _ => 0) (fun _ => 0)
    (fun _ => by norm_num) (fun _ => by norm_num) (fun _ => by norm_num)
    (demoPoint 0 (fun _ => 0) 0 0 90) (List.mem_cons_self _ _)

/-! ### C9: derivations never mutate the cache -/

/-- C9: the derivation paths never write the cache: `updateChart`,
`updateStats` and their composition leave `cachedData` — its length, its
order and every field of every point — unchanged. -/
theorem derivations_preserve_cache (s : AppState) (tf : Timeframe)
    (smaPeriod : ℤ) :
    (stepUpdateChart tf smaPeriod s).cachedData = s.cachedData ∧
    (stepUpdateStats s).cachedData = s.cachedData ∧
    (stepUpdateStats (stepUpdateChart tf smaPeriod s)).cachedData =
      s.cachedData :=
  ⟨rfl, rfl, rfl⟩

/-! ### C2: the load boundary -/

/-- C2 counterexample: a successful fetch whose payload parses to the
empty array is stored as-is — no non-emptiness validation runs, no
fallback is generated, and the cache is left empty after the load,
contradicting the claimed validation and the claimed non-empty cache. -/
theorem loadData_empty_payload :
    loadData (.httpResponse true (some [])) 0 (fun _ => 0) (fun _ => 0)
      (fun _ => 0) = [] ∧
    loadData (.httpResponse true (some [])) 0 (fun _ => 0) (fun _ => 0)
      (fun _ => 0) ≠
      useDemoData 0 (fun _ => 0) (fun _ => 0) (fun _ => 0) := by
  refine ⟨rfl, ?_⟩
  intro h
  have h1 := congrArg List.length h
  rw [useDemoData, demoLoop_length] at h1
  simp [loadData] at h1

/-- C2 amended: transport errors, non-success statuses and JSON parse
failures all fall back to the synthetic generator (whose 91-point result
never leaves the cache empty), while any successfully parsed payload —
including an empty one — is stored as-is with no validation. -/
theorem loadData_spec (today : ℤ) (sin : ℚ → ℚ) (jL jP : ℕ → ℚ)
    (d : List DataPoint) (pl : Option (List DataPoint)) :
    loadData (.httpResponse true (some d)) today sin jL jP = d ∧
    loadData .transportError today sin jL jP = useDemoData today sin jL jP ∧
    loadData (.httpResponse false pl) today sin jL jP =
      useDemoData today sin jL jP ∧
    loadData (.httpResponse true none) today sin jL jP =
      useDemoData today sin jL jP ∧
    (useDemoData today sin jL jP).length = 91 :=
  ⟨rfl, rfl, rfl, rfl,
    (demoLoop_length today sin jL jP 90).trans (by norm_num)⟩
